import Mathlib

/-!
# TaskFlow server: shallow embedding and verification

This file embeds the data layer and HTTP handlers of `src/server.ts`
(an Express + better-sqlite3 task manager) as pure Lean functions over an
explicit store, and proves properties of the handlers.

Modelling conventions, each justified by the source:

* The SQLite database is a `Store`: lists of user, task and subtask rows plus
  the AUTOINCREMENT counters (`lastInsertRowid` of the next insert).
* better-sqlite3 compiles SQLite with SQLITE_DEFAULT_FOREIGN_KEYS=1, so the
  declared `FOREIGN KEY(task_id) REFERENCES tasks(id) ON DELETE CASCADE` is
  enforced: deleting a task deletes its subtasks, and inserting a subtask
  whose task_id matches no task row fails the constraint.
* JSON body fields are `Option String`: `none` is an absent field
  (JS `undefined`).  better-sqlite3 refuses to bind `undefined`
  (TypeError), and the routes have no try/catch, so a statement binding an
  absent field makes the request fail with HTTP 500 and leaves the store
  unchanged.  (`/api/register` checks its fields first and catches errors.)
* JS truthiness on strings (`priority || "medium"`, `!email`) treats the
  empty string as falsy; `completed ? 1 : 0` is modelled by a `Bool`
  argument, the truthiness of the request value.
* `created_at DATETIME DEFAULT CURRENT_TIMESTAMP` is a Nat of seconds; the
  SQL `date(...)` truncation to a day is division by 86400.  The canonical
  "YYYY-MM-DD HH:MM:SS" strings compare lexicographically exactly as the
  (day, second) pairs compare, so `created_at >= date(now,-7 days)` is
  `dayOfNow - 7 ≤ day of created_at`.
* `ORDER BY created_at DESC` and `GROUP BY date(created_at)` (which sorts by
  the group key) are insertion sorts; ties are in unspecified order in
  SQLite, and no theorem below depends on tie order.
-/

namespace TaskFlow

/-- A row of the `users` table. -/
structure UserRow where
  id : Nat
  email : String
  password : String
  name : String
  deriving Repr, DecidableEq

/-- A row of the `tasks` table. -/
structure TaskRow where
  id : Nat
  user_id : Nat
  title : String
  description : String
  priority : String
  category : String
  due_date : String
  completed : Nat
  created_at : Nat
  deriving Repr, DecidableEq

/-- A row of the `subtasks` table. -/
structure SubtaskRow where
  id : Nat
  task_id : Nat
  title : String
  completed : Nat
  deriving Repr, DecidableEq

/-- The persistent store: the three tables and the AUTOINCREMENT counters. -/
structure Store where
  users : List UserRow
  tasks : List TaskRow
  subtasks : List SubtaskRow
  nextUserId : Nat
  nextTaskId : Nat
  nextSubtaskId : Nat
  deriving Repr, DecidableEq

/-- JSON responses of the handlers (status + payload, as the routes produce). -/
inductive Resp where
  | okId (id : Nat)
  | okCreatedTask (id : Nat) (title : String) (completed : Nat)
      (subtasks : List SubtaskRow)
  | okCreatedSubtask (id : Nat) (title : String) (completed : Nat)
  | okTasks (tasks : List (TaskRow × List SubtaskRow))
  | okStats (total : Nat) (completed : Option Nat)
      (high_priority_pending : Option Nat) (weekly : List (Nat × Nat))
  | success
  | err (status : Nat) (msg : String)
  deriving Repr, DecidableEq

/-- JS `x || d` for an optional string field: absent and `""` are falsy. -/
def orDefault (o : Option String) (d : String) : String :=
  match o with
  | none => d
  | some s => if s = "" then d else s

/-- JS falsiness of an optional string field (`!email`). -/
def falsy (o : Option String) : Bool :=
  match o with
  | none => true
  | some s => s == ""

/-- JS `email.split("@")[0]`. -/
def localPart (e : String) : String :=
  (e.splitOn "@").headD e

/-- Seconds in a day; `date(ts)` truncates a timestamp to its day number. -/
def secPerDay : Nat := 86400

/-- SQL `date(created_at)`: the day number of a timestamp. -/
def dayOf (ts : Nat) : Nat := ts / secPerDay

/-- POST /api/register.  Validates field presence, hashes the password
(`hash` abstracts bcrypt), and relies on the UNIQUE constraint on email for
conflict detection, which the route catches and maps to HTTP 400. -/
def register (hash : String → String) (st : Store)
    (email password name : Option String) : Store × Resp :=
  if falsy email || falsy password then
    (st, Resp.err 400 "Email and password required")
  else
    let e := email.getD ""
    if st.users.any (fun u => u.email == e) then
      (st, Resp.err 400 "Email already exists")
    else
      ({ st with
          users := st.users ++
            [{ id := st.nextUserId, email := e,
               password := hash (password.getD ""),
               name := orDefault name (localPart e) }],
          nextUserId := st.nextUserId + 1 },
       Resp.okId st.nextUserId)

/-- POST /api/tasks (authenticated as `uid`).  No validation: the insert
binds title, description and due_date raw (absent field ⇒ binding error ⇒
HTTP 500), applies the `|| "medium"` and `|| "General"` defaults, and lets
the schema default `completed` to 0 and `created_at` to the current time. -/
def createTask (st : Store) (uid now : Nat)
    (title description priority category due_date : Option String) :
    Store × Resp :=
  match title, description, due_date with
  | some ti, some de, some dd =>
      ({ st with
          tasks := st.tasks ++
            [{ id := st.nextTaskId, user_id := uid, title := ti,
               description := de,
               priority := orDefault priority "medium",
               category := orDefault category "General",
               due_date := dd, completed := 0, created_at := now }],
          nextTaskId := st.nextTaskId + 1 },
       Resp.okCreatedTask st.nextTaskId ti 0 [])
  | _, _, _ => (st, Resp.err 500 "TypeError: cannot bind undefined")

/-- PUT /api/tasks/:id (authenticated as `uid`).  Full-row UPDATE filtered
by `id = ? AND user_id = ?`; all five text fields are bound raw (absent ⇒
binding error ⇒ HTTP 500); `completed` is the truthiness coercion
`completed ? 1 : 0`.  Responds `{success:true}` whether or not a row
matched. -/
def updateTask (st : Store) (uid id : Nat)
    (title description priority category due_date : Option String)
    (completed : Bool) : Store × Resp :=
  match title, description, priority, category, due_date with
  | some ti, some de, some pr, some ca, some dd =>
      ({ st with
          tasks := st.tasks.map (fun t =>
            if t.id == id && t.user_id == uid then
              { t with title := ti, description := de, priority := pr,
                       category := ca, due_date := dd,
                       completed := if completed then 1 else 0 }
            else t) },
       Resp.success)
  | _, _, _, _, _ => (st, Resp.err 500 "TypeError: cannot bind undefined")

/-- DELETE /api/tasks/:id (authenticated as `uid`).  Deletes task rows
matching `id = ? AND user_id = ?`; the enforced ON DELETE CASCADE removes
every subtask row whose task_id references a deleted task row.  Responds
`{success:true}` whether or not a row matched. -/
def deleteTask (st : Store) (uid id : Nat) : Store × Resp :=
  let removed := st.tasks.filter (fun t => t.id == id && t.user_id == uid)
  ({ st with
      tasks := st.tasks.filter (fun t => !(t.id == id && t.user_id == uid)),
      subtasks := st.subtasks.filter
        (fun s => !(removed.any (fun t => t.id == s.task_id))) },
   Resp.success)

/-- POST /api/tasks/:taskId/subtasks.  Inserts with no ownership check;
title is bound raw (absent ⇒ binding error ⇒ HTTP 500); the enforced
foreign key rejects a task_id matching no task row (constraint error,
uncaught ⇒ HTTP 500). -/
def createSubtask (st : Store) (taskId : Nat) (title : Option String) :
    Store × Resp :=
  match title with
  | none => (st, Resp.err 500 "TypeError: cannot bind undefined")
  | some ti =>
      if st.tasks.any (fun t => t.id == taskId) then
        ({ st with
            subtasks := st.subtasks ++
              [{ id := st.nextSubtaskId, task_id := taskId, title := ti,
                 completed := 0 }],
            nextSubtaskId := st.nextSubtaskId + 1 },
         Resp.okCreatedSubtask st.nextSubtaskId ti 0)
      else (st, Resp.err 500 "FOREIGN KEY constraint failed")

/-- PUT /api/subtasks/:id.  Sets the completion flag by subtask id, with no
ownership chain check; `completed ? 1 : 0` coercion. -/
def updateSubtask (st : Store) (id : Nat) (completed : Bool) :
    Store × Resp :=
  ({ st with
      subtasks := st.subtasks.map (fun s =>
        if s.id == id then
          { s with completed := if completed then 1 else 0 }
        else s) },
   Resp.success)

/-- `ORDER BY created_at DESC`: newest first. -/
def createdDesc (a b : TaskRow) : Prop := b.created_at ≤ a.created_at

instance : DecidableRel createdDesc := fun a b =>
  Nat.decLe b.created_at a.created_at

instance : IsTotal TaskRow createdDesc :=
  ⟨fun a b => Nat.le_total b.created_at a.created_at⟩

instance : IsTrans TaskRow createdDesc :=
  ⟨fun _ _ _ hab hbc => Nat.le_trans hbc hab⟩

/-- GET /api/tasks: the rows of the owner ordered by created_at DESC, each with
the subtask rows whose task_id matches it. -/
def listTasksRows (st : Store) (uid : Nat) :
    List (TaskRow × List SubtaskRow) :=
  ((st.tasks.filter (fun t => t.user_id == uid)).insertionSort
      createdDesc).map
    (fun t => (t, st.subtasks.filter (fun s => s.task_id == t.id)))

/-- GET /api/tasks as a response. -/
def listTasks (st : Store) (uid : Nat) : Resp :=
  Resp.okTasks (listTasksRows st uid)

/-- The totals row of GET /api/stats.  SQL `SUM` yields NULL (here `none`)
when the owner has no task rows at all; `COUNT(*)` is never NULL. -/
structure Totals where
  total : Nat
  completed : Option Nat
  high_priority_pending : Option Nat
  deriving Repr, DecidableEq

/-- The first /api/stats query: COUNT(*), SUM(completed = 1),
SUM(priority = high AND completed = 0) over the tasks of the owner. -/
def statsTotals (st : Store) (uid : Nat) : Totals :=
  let mine := st.tasks.filter (fun t => t.user_id == uid)
  { total := mine.length
    completed :=
      if mine.isEmpty then none
      else some (mine.filter (fun t => t.completed == 1)).length
    high_priority_pending :=
      if mine.isEmpty then none
      else some (mine.filter
        (fun t => t.priority == "high" && t.completed == 0)).length }

/-- The second /api/stats query: the tasks of the owner with
`created_at >= date(now, -7 days)`, grouped by day with COUNT(*), the
groups sorted ascending by day (SQLite sorts by the GROUP BY key). -/
def statsWeekly (st : Store) (uid now : Nat) : List (Nat × Nat) :=
  let recent := st.tasks.filter (fun t =>
    t.user_id == uid && decide (dayOf now - 7 ≤ dayOf t.created_at))
  let days := ((recent.map (fun t => dayOf t.created_at)).dedup).insertionSort
    (· ≤ ·)
  days.map (fun d =>
    (d, (recent.filter (fun t => dayOf t.created_at == d)).length))

/-- GET /api/stats: the totals row spread together with the weekly rows. -/
def computeStats (st : Store) (uid now : Nat) : Resp :=
  let t := statsTotals st uid
  Resp.okStats t.total t.completed t.high_priority_pending
    (statsWeekly st uid now)

/-- A mutating request against the store (the authenticated identity and
body fields are arguments of the operation). -/
inductive Op where
  | register (email password name : Option String)
  | createTask (uid now : Nat)
      (title description priority category due_date : Option String)
  | updateTask (uid id : Nat)
      (title description priority category due_date : Option String)
      (completed : Bool)
  | deleteTask (uid id : Nat)
  | createSubtask (taskId : Nat) (title : Option String)
  | updateSubtask (id : Nat) (completed : Bool)

/-- Dispatch a mutating request to its handler. -/
def applyOp (hash : String → String) (op : Op) (st : Store) : Store × Resp :=
  match op with
  | .register e p n => register hash st e p n
  | .createTask uid now ti de pr ca dd => createTask st uid now ti de pr ca dd
  | .updateTask uid id ti de pr ca dd c =>
      updateTask st uid id ti de pr ca dd c
  | .deleteTask uid id => deleteTask st uid id
  | .createSubtask taskId ti => createSubtask st taskId ti
  | .updateSubtask id c => updateSubtask st id c

/-- The 0/1 invariant on every completion flag in the store. -/
def CompletedBoolInv (st : Store) : Prop :=
  (∀ t ∈ st.tasks, t.completed = 0 ∨ t.completed = 1) ∧
  (∀ s ∈ st.subtasks, s.completed = 0 ∨ s.completed = 1)

/-- When the deleted id is owned by the caller, the cascade removes exactly
the subtask rows referencing that id. -/
theorem deleteTask_subtasks_eq (st : Store) (uid id : Nat)
    (hown : ∃ t ∈ st.tasks, t.id = id ∧ t.user_id = uid) :
    (deleteTask st uid id).1.subtasks
      = st.subtasks.filter (fun s => !(s.task_id == id)) := by
  obtain ⟨t0, ht0, hid, huid⟩ := hown
  show st.subtasks.filter _ = st.subtasks.filter _
  refine List.filter_congr ?_
  intro s _
  by_cases h : s.task_id = id
  · have hany : (st.tasks.filter (fun t => t.id == id && t.user_id == uid)).any
        (fun t => t.id == s.task_id) = true := by
      refine List.any_eq_true.mpr ⟨t0, List.mem_filter.mpr ⟨ht0, ?_⟩, ?_⟩
      · simp [hid, huid]
      · simp [hid, h]
    have hbeq : (s.task_id == id) = true := by simp [h]
    rw [hany, hbeq]
  · have hany : (st.tasks.filter (fun t => t.id == id && t.user_id == uid)).any
        (fun t => t.id == s.task_id) = false := by
      refine List.any_eq_false.mpr ?_
      intro t htm
      rcases List.mem_filter.mp htm with ⟨_, hp⟩
      simp only [Bool.and_eq_true, beq_iff_eq] at hp
      intro hb
      rw [beq_iff_eq] at hb
      exact h (hb.symm.trans hp.1)
    have hbeq : (s.task_id == id) = false := by simp [h]
    rw [hany, hbeq]

/-- C1: for an owner and a task id that owner holds, DeleteTask removes
every subtask row whose task_id is that id (their count afterwards is 0)
and leaves the subtask rows of every other task id unchanged. -/
theorem deleteTask_cascade (st : Store) (uid id : Nat)
    (hown : ∃ t ∈ st.tasks, t.id = id ∧ t.user_id = uid) :
    ((deleteTask st uid id).1.subtasks.filter
        (fun s => s.task_id == id)).length = 0 ∧
    ∀ tid : Nat, tid ≠ id →
      (deleteTask st uid id).1.subtasks.filter (fun s => s.task_id == tid)
        = st.subtasks.filter (fun s => s.task_id == tid) := by
  rw [deleteTask_subtasks_eq st uid id hown]
  constructor
  · rw [List.filter_filter]
    have hnil : st.subtasks.filter
        (fun a => a.task_id == id && !(a.task_id == id)) = [] := by
      refine List.filter_eq_nil_iff.mpr ?_
      intro a _
      simp
    rw [hnil]
    rfl
  · intro tid htid
    rw [List.filter_filter]
    refine List.filter_congr ?_
    intro s _
    by_cases h : s.task_id = tid
    · simp [h, htid]
    · simp [h]

/-- Store for the C1 witness: two tasks of user 1, subtasks on both. -/
def c1Store : Store :=
  ⟨[], [⟨1, 1, "a", "", "medium", "General", "", 0, 0⟩,
        ⟨2, 1, "b", "", "medium", "General", "", 0, 0⟩],
   [⟨1, 1, "s1", 0⟩, ⟨2, 1, "s2", 0⟩, ⟨3, 2, "s3", 0⟩], 1, 3, 4⟩

/-- C1 witness: deleting task 1 of user 1 empties the subtasks of task 1
and keeps the subtasks of task 2. -/
theorem deleteTask_cascade_witness :
    ((deleteTask c1Store 1 1).1.subtasks.filter
        (fun s => s.task_id == 1)).length = 0 ∧
    (deleteTask c1Store 1 1).1.subtasks.filter (fun s => s.task_id == 2)
      = c1Store.subtasks.filter (fun s => s.task_id == 2) := by
  have hown : ∃ t ∈ c1Store.tasks, t.id = 1 ∧ t.user_id = 1 :=
    ⟨⟨1, 1, "a", "", "medium", "General", "", 0, 0⟩,
     List.mem_cons_self _ _, rfl, rfl⟩
  exact ⟨(deleteTask_cascade c1Store 1 1 hown).1,
         (deleteTask_cascade c1Store 1 1 hown).2 2 (by decide)⟩

/-- C3: UpdateTask (with all body fields present) and DeleteTask aimed at a
task id not owned by the caller leave the store entirely unchanged and
still answer {success:true}. -/
theorem update_delete_foreign_noop (st : Store) (uid id : Nat)
    (ti de pr ca dd : String) (c : Bool)
    (hfor : ∀ t ∈ st.tasks, t.id = id → t.user_id ≠ uid) :
    updateTask st uid id (some ti) (some de) (some pr) (some ca) (some dd) c
      = (st, Resp.success) ∧
    deleteTask st uid id = (st, Resp.success) := by
  have hc : ∀ t ∈ st.tasks, (t.id == id && t.user_id == uid) = false := by
    intro t ht
    by_cases h1 : t.id = id
    · simp [h1, hfor t ht h1]
    · simp [h1]
  constructor
  · simp only [updateTask]
    have hmap : ∀ t ∈ st.tasks,
        (if t.id == id && t.user_id == uid then
          { t with title := ti, description := de, priority := pr,
                   category := ca, due_date := dd,
                   completed := if c then 1 else 0 }
        else t) = t := by
      intro t ht
      simp [hc t ht]
    rw [List.map_congr_left hmap, List.map_id']
  · simp only [deleteTask]
    have hrem : st.tasks.filter (fun t => t.id == id && t.user_id == uid)
        = [] :=
      List.filter_eq_nil_iff.mpr (fun t ht => by simp [hc t ht])
    have hkeep : st.tasks.filter
        (fun t => !(t.id == id && t.user_id == uid)) = st.tasks :=
      List.filter_eq_self.mpr (fun t ht => by simp [hc t ht])
    rw [hrem, hkeep]
    simp

/-- Store for the C3 witness: one task, owned by user 2, with a subtask. -/
def c3Store : Store :=
  ⟨[], [⟨1, 2, "a", "", "medium", "General", "", 0, 0⟩],
   [⟨1, 1, "s", 0⟩], 1, 2, 2⟩

/-- C3 witness: user 1 updating and deleting task 1 (owned by user 2)
changes nothing and gets {success:true}. -/
theorem update_delete_foreign_noop_witness :
    updateTask c3Store 1 1 (some "t") (some "d") (some "high") (some "Work")
      (some "2025-01-01") true = (c3Store, Resp.success) ∧
    deleteTask c3Store 1 1 = (c3Store, Resp.success) :=
  update_delete_foreign_noop c3Store 1 1 "t" "d" "high" "Work" "2025-01-01"
    true (by
      intro t ht h1
      have ht2 : t = ⟨1, 2, "a", "", "medium", "General", "", 0, 0⟩ := by
        simpa [c3Store] using ht
      subst ht2
      decide)

/-- C2 counterexample: a create request with an empty title (other bound
fields present) is not rejected with a 400 ValidationError: it answers the
created record and persists the row. -/
theorem createTask_emptyTitle_counterexample :
    (createTask ⟨[], [], [], 1, 1, 1⟩ 1 0 (some "") (some "") none none
        (some "")).2 = Resp.okCreatedTask 1 "" 0 [] ∧
    (createTask ⟨[], [], [], 1, 1, 1⟩ 1 0 (some "") (some "") none none
        (some "")).1.tasks
      = [⟨1, 1, "", "", "medium", "General", "", 0, 0⟩] :=
  ⟨rfl, rfl⟩

/-- C2 (amended): CreateTask does no title validation.  With title,
description and due_date fields present (empty strings included) it
persists a row with server-assigned id, the field defaults, completed = 0
and created_at = now, and answers the created record with an empty subtask
list; with the title field absent the statement binding fails and the
request errors with HTTP 500, never a 400 ValidationError. -/
theorem createTask_behavior (st : Store) (uid now : Nat)
    (ti de dd : String) (priority category : Option String) :
    ((createTask st uid now (some ti) (some de) priority category
        (some dd)).2 = Resp.okCreatedTask st.nextTaskId ti 0 [] ∧
      (createTask st uid now (some ti) (some de) priority category
        (some dd)).1.tasks
        = st.tasks ++
          [{ id := st.nextTaskId, user_id := uid, title := ti,
             description := de, priority := orDefault priority "medium",
             category := orDefault category "General", due_date := dd,
             completed := 0, created_at := now }]) ∧
    ∀ de2 pr2 ca2 dd2 : Option String,
      createTask st uid now none de2 pr2 ca2 dd2
        = (st, Resp.err 500 "TypeError: cannot bind undefined") := by
  refine ⟨⟨rfl, rfl⟩, ?_⟩
  intro de2 pr2 ca2 dd2
  cases de2 <;> cases dd2 <;> rfl

/-- C4 counterexample: with zero tasks for the owner, the totals query
yields NULL for both SUM aggregates (SQL SUM over no rows), not 0. -/
theorem statsTotals_empty_counterexample :
    statsTotals ⟨[], [], [], 1, 1, 1⟩ 1 = ⟨0, none, none⟩ ∧
    statsTotals ⟨[], [], [], 1, 1, 1⟩ 1 ≠ ⟨0, some 0, some 0⟩ :=
  ⟨rfl, by decide⟩

/-- C4 (amended): for an owner holding N tasks of which K are completed and
H are pending at high priority, the totals row is (N, K, H) when N > 0;
when N = 0 it is (0, NULL, NULL): the SUM aggregates are NULL over zero
rows, not 0. -/
theorem statsTotals_counts (st : Store) (uid N K H : Nat)
    (hN : (st.tasks.filter (fun t => t.user_id == uid)).length = N)
    (hK : ((st.tasks.filter (fun t => t.user_id == uid)).filter
        (fun t => t.completed == 1)).length = K)
    (hH : ((st.tasks.filter (fun t => t.user_id == uid)).filter
        (fun t => t.priority == "high" && t.completed == 0)).length = H) :
    (0 < N → statsTotals st uid = ⟨N, some K, some H⟩) ∧
    (N = 0 → statsTotals st uid = ⟨0, none, none⟩) := by
  constructor
  · intro hpos
    have hne : (st.tasks.filter (fun t => t.user_id == uid)).isEmpty
        = false := by
      cases hE : st.tasks.filter (fun t => t.user_id == uid) with
      | nil => rw [hE] at hN; simp at hN; omega
      | cons a l => rfl
    simp only [statsTotals, hne, Bool.false_eq_true, if_false, hN, hK, hH]
  · intro h0
    have hnil : st.tasks.filter (fun t => t.user_id == uid) = [] :=
      List.length_eq_zero.mp (by omega)
    simp only [statsTotals, hnil]
    rfl

/-- Store for the C4 witness: user 1 holds tasks 1 and 2 (one completed,
one high-priority pending); task 3 belongs to user 2. -/
def c4Store : Store :=
  ⟨[], [⟨1, 1, "a", "", "high", "General", "", 0, 5⟩,
        ⟨2, 1, "b", "", "medium", "General", "", 1, 6⟩,
        ⟨3, 2, "c", "", "high", "General", "", 0, 7⟩], [], 1, 4, 1⟩

/-- C4 witness: the totals of user 1 in the sample store. -/
theorem statsTotals_counts_witness :
    statsTotals c4Store 1 = ⟨2, some 1, some 1⟩ :=
  (statsTotals_counts c4Store 1 2 1 1 rfl rfl rfl).1 (by decide)

/-- The day keys of the weekly rows are the sorted, deduplicated days of
the recent tasks of the owner. -/
theorem statsWeekly_fst (st : Store) (uid now : Nat) :
    (statsWeekly st uid now).map Prod.fst
      = ((st.tasks.filter (fun t => t.user_id == uid &&
            decide (dayOf now - 7 ≤ dayOf t.created_at))).map
          (fun t => dayOf t.created_at)).dedup.insertionSort (· ≤ ·) := by
  simp only [statsWeekly, List.map_map]
  exact List.map_id' _

/-- A day appears among the weekly rows exactly when the owner has a task
created on that day inside the trailing window. -/
theorem mem_statsWeekly_fst (st : Store) (uid now d : Nat) :
    d ∈ (statsWeekly st uid now).map Prod.fst ↔
      ∃ t ∈ st.tasks, t.user_id = uid ∧
        dayOf now - 7 ≤ dayOf t.created_at ∧ dayOf t.created_at = d := by
  rw [statsWeekly_fst, List.mem_insertionSort, List.mem_dedup]
  simp [List.mem_map, List.mem_filter, Bool.and_eq_true, beq_iff_eq,
    decide_eq_true_eq, and_assoc]

/-- C5: the weekly component buckets exactly the tasks of the owner created
in the trailing window: day keys are pairwise distinct, every key lies in
the window and carries the count of tasks of the owner created that day,
and every in-window task of the owner is bucketed. -/
theorem statsWeekly_correct (st : Store) (uid now : Nat) :
    ((statsWeekly st uid now).map Prod.fst).Nodup ∧
    (∀ p ∈ statsWeekly st uid now,
      dayOf now - 7 ≤ p.1 ∧
      p.2 = (st.tasks.filter (fun t =>
          t.user_id == uid && dayOf t.created_at == p.1)).length) ∧
    (∀ t ∈ st.tasks, t.user_id = uid → dayOf now - 7 ≤ dayOf t.created_at →
      dayOf t.created_at ∈ (statsWeekly st uid now).map Prod.fst) := by
  refine ⟨?_, ?_, ?_⟩
  · rw [statsWeekly_fst]
    exact ((List.perm_insertionSort _ _).nodup_iff).mpr (List.nodup_dedup _)
  · intro p hp
    have hd : p.1 ∈ (statsWeekly st uid now).map Prod.fst :=
      List.mem_map_of_mem Prod.fst hp
    obtain ⟨t0, _, _, hw0, hday0⟩ := (mem_statsWeekly_fst st uid now p.1).mp hd
    have hwin : dayOf now - 7 ≤ p.1 := hday0 ▸ hw0
    refine ⟨hwin, ?_⟩
    simp only [statsWeekly] at hp
    obtain ⟨d, hdmem, rfl⟩ := List.mem_map.mp hp
    show (List.filter _ (List.filter _ st.tasks)).length = _
    rw [List.filter_filter]
    congr 1
    refine List.filter_congr ?_
    intro t _
    by_cases h : dayOf t.created_at = d
    · have hwin2 : dayOf now - 7 ≤ d := hwin
      have hdec : decide (dayOf now - 7 ≤ dayOf t.created_at) = true :=
        decide_eq_true (by rw [h]; exact hwin2)
      have hb : (dayOf t.created_at == d) = true := by simp [h]
      rw [hb, hdec]
      simp
    · have hb : (dayOf t.created_at == d) = false := by simp [h]
      rw [hb]
      simp
  · intro t ht hu hw
    exact (mem_statsWeekly_fst st uid now (dayOf t.created_at)).mpr
      ⟨t, ht, hu, hw, rfl⟩

/-- The task components of the ListTasks rows are the owner rows sorted by
created_at descending. -/
theorem listTasksRows_fst (st : Store) (uid : Nat) :
    (listTasksRows st uid).map Prod.fst
      = (st.tasks.filter (fun t => t.user_id == uid)).insertionSort
          createdDesc := by
  simp only [listTasksRows, List.map_map]
  exact List.map_id' _

/-- C6: ListTasks returns exactly the tasks of the owner (a permutation of
the owner filter of the table), in non-increasing created_at order, each
carrying exactly the subtask rows whose task_id references it. -/
theorem listTasks_correct (st : Store) (uid : Nat) :
    ((listTasksRows st uid).map Prod.fst).Perm
        (st.tasks.filter (fun t => t.user_id == uid)) ∧
    ((listTasksRows st uid).map Prod.fst).Sorted createdDesc ∧
    ∀ p ∈ listTasksRows st uid,
      p.2 = st.subtasks.filter (fun s => s.task_id == p.1.id) := by
  refine ⟨?_, ?_, ?_⟩
  · rw [listTasksRows_fst]
    exact List.perm_insertionSort _ _
  · rw [listTasksRows_fst]
    exact List.sorted_insertionSort _ _
  · intro p hp
    simp only [listTasksRows] at hp
    obtain ⟨t, _, rfl⟩ := List.mem_map.mp hp
    rfl

/-- C7: Register with a missing email or missing password answers the 400
validation error and leaves the store untouched; Register with a non-empty
email already present in the users table (and a truthy password) answers
the 400 conflict error and leaves the store untouched, so no second row
with that email is ever created. -/
theorem register_missing_and_conflict (hash : String → String) (st : Store) :
    (∀ pw nm : Option String,
      register hash st none pw nm
        = (st, Resp.err 400 "Email and password required")) ∧
    (∀ em nm : Option String,
      register hash st em none nm
        = (st, Resp.err 400 "Email and password required")) ∧
    (∀ (e : String) (pw nm : Option String), e ≠ "" → falsy pw = false →
      (∃ u ∈ st.users, u.email = e) →
      register hash st (some e) pw nm
        = (st, Resp.err 400 "Email already exists")) := by
  refine ⟨fun pw nm => rfl, ?_, ?_⟩
  · intro em nm
    simp [register, falsy, Bool.or_true]
  · intro e pw nm hne hfp hdup
    have hfe : falsy (some e) = false := by simp [falsy, hne]
    have hany : st.users.any (fun u => u.email == (some e).getD "") = true := by
      obtain ⟨u, hu, hue⟩ := hdup
      refine List.any_eq_true.mpr ⟨u, hu, ?_⟩
      simp [hue]
    simp only [register, hfe, hfp, Bool.or_self, Bool.false_eq_true, if_false]
    rw [if_pos hany]

/-- Store for the C8 witness. -/
def c8Store : Store :=
  ⟨[], [⟨1, 1, "a", "", "medium", "General", "", 0, 0⟩],
   [⟨1, 1, "s", 0⟩], 1, 2, 2⟩

/-- C8: every mutating operation preserves the invariant that each stored
completion flag is 0 or 1 (creates initialise it to 0; updates coerce the
request value to 0 or 1; the others never write a flag). -/
theorem applyOp_completed01 (hash : String → String) (op : Op) (st : Store)
    (hinv : CompletedBoolInv st) :
    CompletedBoolInv (applyOp hash op st).1 := by
  obtain ⟨hT, hS⟩ := hinv
  cases op with
  | register e p n =>
      simp only [applyOp, register]
      split
      · exact ⟨hT, hS⟩
      · split
        · exact ⟨hT, hS⟩
        · exact ⟨hT, hS⟩
  | createTask uid now ti de pr ca dd =>
      simp only [applyOp]
      cases ti <;> cases de <;> cases dd <;> try exact ⟨hT, hS⟩
      refine ⟨?_, hS⟩
      intro t ht
      rcases List.mem_append.mp ht with h | h
      · exact hT t h
      · have := List.mem_singleton.mp h
        subst this
        left
        rfl
  | updateTask uid id ti de pr ca dd c =>
      simp only [applyOp]
      cases ti <;> cases de <;> cases pr <;> cases ca <;> cases dd <;>
        try exact ⟨hT, hS⟩
      refine ⟨?_, hS⟩
      intro t ht
      rcases List.mem_map.mp ht with ⟨t0, ht0, rfl⟩
      by_cases hc : (t0.id == id && t0.user_id == uid) = true
      · rw [if_pos hc]
        cases c
        · left
          rfl
        · right
          rfl
      · rw [if_neg hc]
        exact hT t0 ht0
  | deleteTask uid id =>
      refine ⟨?_, ?_⟩
      · intro t ht
        exact hT t (List.mem_filter.mp ht).1
      · intro s hs
        exact hS s (List.mem_filter.mp hs).1
  | createSubtask taskId ti =>
      simp only [applyOp]
      cases ti with
      | none => exact ⟨hT, hS⟩
      | some ti =>
          simp only [createSubtask]
          split
          · refine ⟨hT, ?_⟩
            intro s hs
            rcases List.mem_append.mp hs with h | h
            · exact hS s h
            · have := List.mem_singleton.mp h
              subst this
              left
              rfl
          · exact ⟨hT, hS⟩
  | updateSubtask id c =>
      refine ⟨hT, ?_⟩
      intro s hs
      rcases List.mem_map.mp hs with ⟨s0, hs0, rfl⟩
      by_cases hc : (s0.id == id) = true
      · rw [if_pos hc]
        cases c
        · left
          rfl
        · right
          rfl
      · rw [if_neg hc]
        exact hS s0 hs0

/-- C8 witness: an update that toggles completed on the sample store keeps
every stored flag 0/1. -/
theorem applyOp_completed01_witness :
    CompletedBoolInv ((applyOp (fun s => s)
      (Op.updateTask 1 1 (some "t") (some "") (some "low") (some "G")
        (some "") true) c8Store).1) :=
  applyOp_completed01 (fun s => s) _ c8Store
    (by
      constructor
      · intro t ht
        have := List.mem_singleton.mp ht
        subst this
        left
        rfl
      · intro s hs
        have := List.mem_singleton.mp hs
        subst this
        left
        rfl)

/-- C9: toggling completed to true and back to false through UpdateTask
(all other fields equal) leaves every stored row of that owner and id at
completed = 0 again: the round trip restores the original 0 state. -/
theorem updateTask_toggle_roundtrip (st : Store) (uid id : Nat)
    (ti de pr ca dd : String)
    (h0 : ∀ t ∈ st.tasks, t.id = id → t.user_id = uid → t.completed = 0) :
    ∀ t ∈ ((updateTask
        ((updateTask st uid id (some ti) (some de) (some pr) (some ca)
          (some dd) true).1)
        uid id (some ti) (some de) (some pr) (some ca) (some dd)
        false).1).tasks,
      t.id = id → t.user_id = uid → t.completed = 0 := by
  intro t ht hid huid
  simp only [updateTask] at ht
  rcases List.mem_map.mp ht with ⟨t1, ht1, rfl⟩
  rcases List.mem_map.mp ht1 with ⟨t0, ht0, rfl⟩
  by_cases hc : (t0.id == id && t0.user_id == uid) = true
  · simp [hc]
  · rw [if_neg hc] at hid huid ⊢
    rw [if_neg hc] at hid huid ⊢
    exact absurd (by simp [hid, huid]) hc

/-- Store for the C9 witness: one pending task of user 1. -/
def c9Store : Store :=
  ⟨[], [⟨1, 1, "a", "", "medium", "General", "", 0, 0⟩], [], 1, 2, 1⟩

/-- C9 witness: after toggling task 1 of user 1 to completed and back, the
stored row is at completed = 0. -/
theorem updateTask_toggle_roundtrip_witness :
    ((⟨1, 1, "t", "d", "low", "G", "x", 0, 0⟩ : TaskRow) ∈
      ((updateTask ((updateTask c9Store 1 1 (some "t") (some "d")
          (some "low") (some "G") (some "x") true).1) 1 1 (some "t")
          (some "d") (some "low") (some "G") (some "x") false).1).tasks) ∧
    (⟨1, 1, "t", "d", "low", "G", "x", 0, 0⟩ : TaskRow).completed = 0 := by
  have hmem : (⟨1, 1, "t", "d", "low", "G", "x", 0, 0⟩ : TaskRow) ∈
      ((updateTask ((updateTask c9Store 1 1 (some "t") (some "d")
          (some "low") (some "G") (some "x") true).1) 1 1 (some "t")
          (some "d") (some "low") (some "G") (some "x") false).1).tasks :=
    List.mem_singleton.mpr rfl
  exact ⟨hmem,
    updateTask_toggle_roundtrip c9Store 1 1 "t" "d" "low" "G" "x"
      (by decide) _ hmem rfl rfl⟩

/-- C10 counterexample: with no task rows at all, CreateSubtask(5, x) does
not persist or report a created subtask: the enforced foreign key fails
the insert and the store is unchanged. -/
theorem createSubtask_orphan_counterexample :
    createSubtask ⟨[], [], [], 1, 1, 1⟩ 5 (some "x")
      = (⟨[], [], [], 1, 1, 1⟩,
         Resp.err 500 "FOREIGN KEY constraint failed") ∧
    (createSubtask ⟨[], [], [], 1, 1, 1⟩ 5 (some "x")).2
      ≠ Resp.okCreatedSubtask 1 "x" 0 :=
  ⟨rfl, by decide⟩

/-- C10 (amended): CreateSubtask persists a subtask row with the given
task_id and completed = 0 and reports it created when some task row has
that id; when no task row has that id, the declared foreign key (enforced
by the better-sqlite3 build) rejects the insert: the request errors with
HTTP 500 and no orphan row is stored. -/
theorem createSubtask_behavior (st : Store) (taskId : Nat) (ti : String) :
    (st.tasks.any (fun t => t.id == taskId) = true →
      createSubtask st taskId (some ti)
        = ({ st with
              subtasks := st.subtasks ++
                [{ id := st.nextSubtaskId, task_id := taskId, title := ti,
                   completed := 0 }],
              nextSubtaskId := st.nextSubtaskId + 1 },
           Resp.okCreatedSubtask st.nextSubtaskId ti 0)) ∧
    ((∀ t ∈ st.tasks, t.id ≠ taskId) →
      createSubtask st taskId (some ti)
        = (st, Resp.err 500 "FOREIGN KEY constraint failed")) := by
  constructor
  · intro h
    simp only [createSubtask]
    rw [if_pos h]
  · intro h
    have hany : st.tasks.any (fun t => t.id == taskId) = false :=
      List.any_eq_false.mpr (fun t ht => by simp [h t ht])
    simp only [createSubtask]
    rw [if_neg (by simp [hany])]

end TaskFlow
